import Mathlib

/-!
Verification of the BrandAI client (`brandai_backend/static/script.js`).

The file shallowly embeds the client-side logic of the BrandAI web frontend:
file intake, the evaluation request/response cycle, the critique renderer,
and the regeneration request/response cycle.  JavaScript numbers that are
compared against the literals `0.8` and `0.5` are modelled as either a
rational number or NaN (`JSNum`); JavaScript `>=` returns false whenever one
operand is NaN, which `JSNum.jsGe` reproduces.  DOM element state
(visibility, disabled flags, text content) is carried explicitly in a
`ClientState` record, and each event handler of the script becomes a state
transformer.  Network activity is modelled by logs of issued requests plus
counters of unsettled ones; the arrival of a response is an event.
-/

/-- A JavaScript number as used by the score classifier: either an ordinary
(finite) number, modelled as a rational, or NaN.  The literals `0.8` and
`0.5` of the source compare exactly against a score that was produced from
the same decimal literal, which the rational model reproduces. -/
inductive JSNum where
  | num : ℚ → JSNum
  | nan : JSNum
deriving DecidableEq, Repr

/-- JavaScript `x >= c` for a number `x` and a non-NaN constant `c`:
false whenever `x` is NaN, the numeric comparison otherwise. -/
def JSNum.jsGe (x : JSNum) (c : ℚ) : Bool :=
  match x with
  | .num q => decide (c ≤ q)
  | .nan => false

/-- Function `getScoreColor` of script.js lines 226-230:
`if (score >= 0.8) return 'var(--success-color)';`
`if (score >= 0.5) return 'var(--warning-color)';`
`return 'var(--danger-color)';` -/
def getScoreColor (score : JSNum) : String :=
  if score.jsGe (4/5) then "var(--success-color)"
  else if score.jsGe (1/2) then "var(--warning-color)"
  else "var(--danger-color)"

/-- Claim C1: for every finite score `s`, the classification is favorable
(`var(--success-color)`) iff `s ≥ 0.8`, caution (`var(--warning-color)`)
iff `0.5 ≤ s < 0.8`, and unfavorable (`var(--danger-color)`) iff `s < 0.5`;
in particular `s = 0.8` is favorable and `s = 0.5` is caution. -/
theorem getScoreColor_classification (s : ℚ) :
    (getScoreColor (JSNum.num s) = "var(--success-color)" ↔ (4/5 : ℚ) ≤ s) ∧
    (getScoreColor (JSNum.num s) = "var(--warning-color)" ↔
      ((1/2 : ℚ) ≤ s ∧ s < 4/5)) ∧
    (getScoreColor (JSNum.num s) = "var(--danger-color)" ↔ s < (1/2 : ℚ)) ∧
    getScoreColor (JSNum.num (4/5)) = "var(--success-color)" ∧
    getScoreColor (JSNum.num (1/2)) = "var(--warning-color)" := by
  refine ⟨?_, ?_, ?_, by norm_num [getScoreColor, JSNum.jsGe],
    by norm_num [getScoreColor, JSNum.jsGe]⟩ <;>
    · simp only [getScoreColor, JSNum.jsGe]
      split_ifs with h1 h2 <;>
        simp_all <;> linarith

/-- Claim C9: the score classifier is total over all JavaScript numeric
inputs: every input (NaN and out-of-range values included) is mapped to one
of the three color strings, every input for which neither `s >= 0.8` nor
`s >= 0.5` holds is mapped to the unfavorable color, and NaN in particular
is mapped to the unfavorable color. -/
theorem getScoreColor_total (x : JSNum) :
    (getScoreColor x = "var(--success-color)" ∨
     getScoreColor x = "var(--warning-color)" ∨
     getScoreColor x = "var(--danger-color)") ∧
    (x.jsGe (4/5) = false → x.jsGe (1/2) = false →
      getScoreColor x = "var(--danger-color)") ∧
    getScoreColor JSNum.nan = "var(--danger-color)" := by
  refine ⟨?_, ?_, by decide⟩
  · simp only [getScoreColor]
    split_ifs <;> simp
  · intro h1 h2
    simp only [getScoreColor, h1, h2]
    simp

/-- Witness for C9 at the concrete input NaN. -/
theorem getScoreColor_total_witness :
    getScoreColor JSNum.nan = "var(--danger-color)" :=
  (getScoreColor_total JSNum.nan).2.1 rfl rfl

/-- A user-selected file: its name and declared media type
(the `name` and `type` properties of a DOM `File` object). -/
structure FileVal where
  name : String
  type : String
deriving DecidableEq, Repr

/-- One dimension of the scorecard: `{score, feedback}`. -/
structure ScoreDetail where
  score : JSNum
  feedback : String
deriving DecidableEq, Repr

/-- The `scorecard` object of an evaluation response.  `strengths` is
`none` when the field is absent (JavaScript `undefined`/`null`). -/
structure Scorecard where
  brand_alignment : ScoreDetail
  visual_quality : ScoreDetail
  message_clarity : ScoreDetail
  safety_ethics : ScoreDetail
  overall_score : JSNum
  strengths : Option (List String)
deriving DecidableEq, Repr

/-- A successful evaluation response body.  The refinement plan is carried
as an opaque string, stored and round-tripped without interpretation. -/
structure CritiqueResult where
  brand_name : String
  original_image : String
  refinement_plan : String
  scorecard : Scorecard
deriving DecidableEq, Repr

/-- The client's mutable state: the two script variables (`imageFile`,
`currentRefinementPlan`, script.js lines 9-10), the DOM state the handlers
read or write (visibility, disabled flags, text content), the list of
alert messages raised, and the network activity: logs of issued requests
plus counters of requests still unsettled. -/
structure ClientState where
  imageFile : Option FileVal
  currentRefinementPlan : Option String
  fileNameText : String
  submitDisabled : Bool
  loaderVisible : Bool
  resultsPlaceholderVisible : Bool
  placeholderTitle : String
  placeholderText : String
  resultsContentVisible : Bool
  imagesSectionVisible : Bool
  resultsTitle : String
  originalImageSrc : String
  strengthsItems : List String
  refinementPlanText : String
  regenButtonVisible : Bool
  regenButtonDisabled : Bool
  regenLoaderVisible : Bool
  regenImageVisible : Bool
  regenPlaceholderVisible : Bool
  regenImageSrc : String
  alerts : List String
  pendingEval : Nat
  pendingRegen : Nat
  evalRequests : List FileVal
  regenRequests : List String
deriving DecidableEq, Repr

/-- JavaScript `s.startsWith(pre)`: a prefix test on the character
sequence of the string. -/
def jsStartsWith (s pre : String) : Bool :=
  pre.data.isPrefixOf s.data

/-- Function `handleFile` of script.js lines 38-48: accept the file iff its media
type starts with `image/`; on acceptance store it, show its name and enable
submission; otherwise clear the stored file, show the fixed rejection text
and disable submission.  (The handler's `file &&` conjunct is vacuous here:
both call sites invoke it only with a non-null file.)  The function is
total: no exception is raised on any input. -/
def handleFile (file : FileVal) (s : ClientState) : ClientState :=
  if jsStartsWith file.type ("image/") then
    { s with imageFile := some file
             fileNameText := file.name
             submitDisabled := false }
  else
    { s with imageFile := none
             fileNameText := "Please select a valid image file."
             submitDisabled := true }

/-- Function `showLoadingState` of script.js lines 122-128. -/
def showLoadingState (s : ClientState) : ClientState :=
  { s with resultsPlaceholderVisible := false
           resultsContentVisible := false
           imagesSectionVisible := false
           loaderVisible := true
           regenButtonVisible := false }

/-- Function `showErrorState` of script.js lines 130-136. -/
def showErrorState (message : String) (s : ClientState) : ClientState :=
  { s with loaderVisible := false
           resultsPlaceholderVisible := true
           placeholderTitle := "Analysis Failed"
           placeholderText := message }

/-- The strengths panel contents produced by script.js lines 195-205:
the list itself when present and non-empty, otherwise the single fixed
fallback line. -/
def renderStrengths (strengths : Option (List String)) : List String :=
  match strengths with
  | some l => if l.length > 0 then l else ["No specific strengths identified."]
  | none => ["No specific strengths identified."]

/-- Function `displayCritiqueResults` of script.js lines 138-213: hide the loader
and placeholder, show the result sections, store the refinement plan
(line 148), populate the original image and header, reset the regenerated
image sub-area to its placeholder, populate the strengths panel and the
refinement-plan text, and show the regenerate button.  (The scorecard
cards' numeric text, which no claim concerns, is not carried in the
state.) -/
def displayCritiqueResults (data : CritiqueResult) (s : ClientState) : ClientState :=
  { s with loaderVisible := false
           resultsPlaceholderVisible := false
           imagesSectionVisible := true
           resultsContentVisible := true
           currentRefinementPlan := some data.refinement_plan
           originalImageSrc := data.original_image
           regenImageVisible := false
           regenPlaceholderVisible := true
           resultsTitle := "Critique for " ++ data.brand_name
           strengthsItems := renderStrengths data.scorecard.strengths
           refinementPlanText := data.refinement_plan
           regenButtonVisible := true }

/-- Function `displayRegeneratedImage` of script.js lines 215-224. -/
def displayRegeneratedImage (imageUrl : String) (s : ClientState) : ClientState :=
  { s with regenLoaderVisible := false
           regenPlaceholderVisible := false
           regenImageSrc := imageUrl
           regenImageVisible := true }

/-- The submit-button click handler, script.js lines 51-61 (up to the
point the `/evaluate` request is issued): refuse with an alert when no
file is stored; otherwise enter the loading state and issue the request.
The handler does not disable the submit button. -/
def submitHandler (s : ClientState) : ClientState :=
  match s.imageFile with
  | none => { s with alerts := s.alerts ++ ["Please select an image first."] }
  | some f =>
      let s1 := showLoadingState s
      { s1 with pendingEval := s1.pendingEval + 1
                evalRequests := s1.evalRequests ++ [f] }

/-- The regenerate-button click handler, script.js lines 83-102 (up to the
point the `/regenerate` request is issued).  The guard is JavaScript
truthiness of `currentRefinementPlan`: both `null` and the empty string
refuse with an alert.  Otherwise the loader is shown, the result image
hidden, the button disabled, and the request issued carrying exactly the
stored plan in its body. -/
def regenHandler (s : ClientState) : ClientState :=
  match s.currentRefinementPlan with
  | none => { s with alerts := s.alerts ++ ["No refinement plan available to generate from."] }
  | some p =>
      if p = "" then
        { s with alerts := s.alerts ++ ["No refinement plan available to generate from."] }
      else
        { s with regenLoaderVisible := true
                 regenImageVisible := false
                 regenButtonDisabled := true
                 pendingRegen := s.pendingRegen + 1
                 regenRequests := s.regenRequests ++ [p] }

/-- Settlement of an `/evaluate` request with an ok response,
script.js lines 73-74: parse the body and render it. -/
def evalSettleOk (r : CritiqueResult) (s : ClientState) : ClientState :=
  displayCritiqueResults r { s with pendingEval := s.pendingEval - 1 }

/-- JavaScript `errorData.detail || fallback`: the detail string when it is
present and truthy (non-empty), the fallback otherwise. -/
def jsOrElse (detail : Option String) (fallback : String) : String :=
  match detail with
  | some d => if d = "" then fallback else d
  | none => fallback

/-- Settlement of an `/evaluate` request with a non-2xx response,
script.js lines 68-71 and 76-79: the thrown message is
`errorData.detail || "HTTP error! Status: " + status`, and the catch
displays it behind the fixed prelude. -/
def evalSettleHttpErr (status : Nat) (detail : Option String) (s : ClientState) : ClientState :=
  showErrorState
    ("An error occurred during evaluation: " ++
      jsOrElse detail ("HTTP error! Status: " ++ toString status))
    { s with pendingEval := s.pendingEval - 1 }

/-- Settlement of an `/evaluate` request with a transport (fetch/parse)
failure, script.js lines 76-79: the underlying error's message is
displayed behind the fixed prelude. -/
def evalSettleTransportErr (msg : String) (s : ClientState) : ClientState :=
  showErrorState ("An error occurred during evaluation: " ++ msg)
    { s with pendingEval := s.pendingEval - 1 }

/-- Settlement of a `/regenerate` request with an ok response,
script.js lines 109-110 then the `finally` of lines 115-118. -/
def regenSettleOk (url : String) (s : ClientState) : ClientState :=
  let s1 := displayRegeneratedImage url { s with pendingRegen := s.pendingRegen - 1 }
  { s1 with regenLoaderVisible := false
            regenButtonDisabled := false }

/-- Settlement of a `/regenerate` request with any failure (non-2xx or
transport), script.js lines 112-118: the catch only logs, and the
`finally` hides the loader and re-enables the button.  Neither the
regenerated image nor its placeholder is touched. -/
def regenSettleFail (s : ClientState) : ClientState :=
  { s with pendingRegen := s.pendingRegen - 1
           regenLoaderVisible := false
           regenButtonDisabled := false }

/-- The observable events: user interactions and the arrival of a response
to a previously issued request. -/
inductive Event where
  | selectFile (f : FileVal)
  | submitClick
  | evalRespOk (r : CritiqueResult)
  | evalRespHttpErr (status : Nat) (detail : Option String)
  | evalRespTransportErr (msg : String)
  | regenClick
  | regenRespOk (url : String)
  | regenRespFail
deriving DecidableEq, Repr

/-- Whether an event is a successful evaluation response. -/
def Event.isEvalOk : Event → Bool
  | .evalRespOk _ => true
  | _ => false

/-- One step of the client: dispatch an event to its handler.  A click on
a disabled button fires no handler (DOM semantics); the submit and
regenerate click handlers otherwise run as in the source.  Response events
model the corresponding promise continuation running. -/
def step (s : ClientState) : Event → ClientState
  | .selectFile f => handleFile f s
  | .submitClick => if s.submitDisabled then s else submitHandler s
  | .evalRespOk r => evalSettleOk r s
  | .evalRespHttpErr status detail => evalSettleHttpErr status detail s
  | .evalRespTransportErr msg => evalSettleTransportErr msg s
  | .regenClick => if s.regenButtonDisabled then s else regenHandler s
  | .regenRespOk url => regenSettleOk url s
  | .regenRespFail => regenSettleFail s

/-- Run a sequence of events from a state. -/
def run (s : ClientState) (es : List Event) : ClientState :=
  es.foldl step s

/-- The client state at page load.  `imageFile` and
`currentRefinementPlan` start null (script.js lines 9-10) and no request
has been issued.  Modelled from the spec: the initial visibility and
disabled flags of the DOM controls come from `static/index.html`, which is
not in the repository snapshot; per the spec the results placeholder is
shown at idle, submission is disabled until a candidate is accepted, and
the regeneration control is hidden (and not disabled) until a plan
exists. -/
def initState : ClientState :=
  { imageFile := none
    currentRefinementPlan := none
    fileNameText := ""
    submitDisabled := true
    loaderVisible := false
    resultsPlaceholderVisible := true
    placeholderTitle := ""
    placeholderText := ""
    resultsContentVisible := false
    imagesSectionVisible := false
    resultsTitle := ""
    originalImageSrc := ""
    strengthsItems := []
    refinementPlanText := ""
    regenButtonVisible := false
    regenButtonDisabled := false
    regenLoaderVisible := false
    regenImageVisible := false
    regenPlaceholderVisible := false
    regenImageSrc := ""
    alerts := []
    pendingEval := 0
    pendingRegen := 0
    evalRequests := []
    regenRequests := [] }

/-- A concrete image file, used as a witness input. -/
def exFile : FileVal :=
  { name := "ad.png", type := "image/png" }

/-- A concrete non-image file, used as a witness input. -/
def txtFile : FileVal :=
  { name := "notes.txt", type := "text/plain" }

/-- A concrete scorecard, used as a witness input. -/
def exScorecard : Scorecard :=
  { brand_alignment := { score := JSNum.num 1, feedback := "good" }
    visual_quality := { score := JSNum.num 1, feedback := "good" }
    message_clarity := { score := JSNum.num 1, feedback := "good" }
    safety_ethics := { score := JSNum.num 1, feedback := "good" }
    overall_score := JSNum.num 1
    strengths := some ["Clear message"] }

/-- A concrete successful evaluation response, used as a witness input. -/
def exResult : CritiqueResult :=
  { brand_name := "Acme"
    original_image := "data:image-original"
    refinement_plan := "plan-1"
    scorecard := exScorecard }

/-- The witness response with an empty strengths list. -/
def emptyStrengthsResult : CritiqueResult :=
  { exResult with scorecard := { exScorecard with strengths := some [] } }

/-- A state holding a retained refinement plan, used as a witness input. -/
def planState : ClientState :=
  { initState with currentRefinementPlan := some ("plan-0") }

/-- Helper: how one step changes `currentRefinementPlan`: a successful
evaluation response stores the received plan, every other event leaves the
field untouched. -/
lemma currentPlan_step_eq (s : ClientState) (e : Event) :
    (step s e).currentRefinementPlan =
      (match e with
       | Event.evalRespOk r => some r.refinement_plan
       | _ => s.currentRefinementPlan) := by
  cases e with
  | selectFile f =>
      simp only [step, handleFile]
      split_ifs <;> rfl
  | submitClick =>
      simp only [step]
      split_ifs with h
      · rfl
      · cases hf : s.imageFile <;> simp [submitHandler, hf, showLoadingState]
  | evalRespOk r => rfl
  | evalRespHttpErr status detail => rfl
  | evalRespTransportErr msg => rfl
  | regenClick =>
      simp only [step]
      split_ifs with h
      · rfl
      · cases hp : s.currentRefinementPlan with
        | none => simp [regenHandler, hp]
        | some p =>
            simp only [regenHandler, hp]
            split_ifs <;> simp [hp]
  | regenRespOk url => rfl
  | regenRespFail => rfl

/-- Claim C4: a selected file is accepted iff its declared media type
begins with `image/`; on acceptance the candidate is stored, its name is
displayed and submission is enabled; on rejection the prior candidate is
cleared, the fixed rejection message is displayed and submission is
disabled.  `handleFile` is a total function, so no exception is raised on
either path. -/
theorem handleFile_accept_iff (file : FileVal) (s : ClientState) :
    ((handleFile file s).imageFile = some file ↔
      jsStartsWith file.type ("image/") = true) ∧
    (jsStartsWith file.type ("image/") = true →
      (handleFile file s).fileNameText = file.name ∧
      (handleFile file s).submitDisabled = false) ∧
    (jsStartsWith file.type ("image/") = false →
      (handleFile file s).imageFile = none ∧
      (handleFile file s).fileNameText = "Please select a valid image file." ∧
      (handleFile file s).submitDisabled = true) := by
  by_cases h : jsStartsWith file.type ("image/") = true
  · simp [handleFile, h]
  · simp only [Bool.not_eq_true] at h
    simp [handleFile, h]

/-- Witness for C4 at a concrete image file and a concrete text file. -/
theorem handleFile_accept_iff_witness :
    (handleFile exFile initState).imageFile = some exFile ∧
    (handleFile exFile initState).submitDisabled = false ∧
    (handleFile txtFile initState).imageFile = none ∧
    (handleFile txtFile initState).fileNameText = "Please select a valid image file." ∧
    (handleFile txtFile initState).submitDisabled = true :=
  ⟨(handleFile_accept_iff exFile initState).1.mpr (by decide),
   ((handleFile_accept_iff exFile initState).2.1 (by decide)).2,
   ((handleFile_accept_iff txtFile initState).2.2 (by decide)).1,
   ((handleFile_accept_iff txtFile initState).2.2 (by decide)).2.1,
   ((handleFile_accept_iff txtFile initState).2.2 (by decide)).2.2⟩

/-- Claim C7: the stored refinement plan survives every event that is not
a successful evaluation response; in particular an evaluation failure
(non-2xx or transport) leaves a previously retained plan unchanged.  Only
the success path (`displayCritiqueResults`, line 148) writes the field. -/
theorem plan_preserved_unless_evalOk (s : ClientState) (e : Event)
    (he : e.isEvalOk = false) :
    (step s e).currentRefinementPlan = s.currentRefinementPlan := by
  rw [currentPlan_step_eq]
  cases e <;> simp_all [Event.isEvalOk]

/-- Witness for C7: a failed evaluation at a state holding a plan. -/
theorem plan_preserved_unless_evalOk_witness :
    (step planState (Event.evalRespHttpErr 500 none)).currentRefinementPlan =
      planState.currentRefinementPlan :=
  plan_preserved_unless_evalOk planState (Event.evalRespHttpErr 500 none) rfl

/-- Claim C8: rendering a critique fills the strengths panel with the
strengths list verbatim when it is present and non-empty, and with exactly
the one fixed placeholder line when it is absent or empty; the rendered
panel is never the empty list. -/
theorem strengths_rendered (r : CritiqueResult) (s : ClientState) :
    ((r.scorecard.strengths = none ∨ r.scorecard.strengths = some []) →
      (step s (Event.evalRespOk r)).strengthsItems =
        ["No specific strengths identified."]) ∧
    (∀ l, r.scorecard.strengths = some l → l ≠ [] →
      (step s (Event.evalRespOk r)).strengthsItems = l) ∧
    (step s (Event.evalRespOk r)).strengthsItems ≠ [] := by
  have hitems : (step s (Event.evalRespOk r)).strengthsItems =
      renderStrengths r.scorecard.strengths := rfl
  refine ⟨?_, ?_, ?_⟩
  · rintro (h | h) <;> simp [hitems, renderStrengths, h]
  · intro l hl hne
    rw [hitems, hl]
    simp only [renderStrengths]
    rw [if_pos]
    exact Nat.pos_of_ne_zero (fun hz => hne (List.eq_nil_of_length_eq_zero hz))
  · rw [hitems]
    cases h : r.scorecard.strengths with
    | none => simp [renderStrengths]
    | some l =>
        simp only [renderStrengths]
        split_ifs with hlen
        · intro hcon
          rw [hcon] at hlen
          simp at hlen
        · simp

/-- Witness for C8: an empty strengths list renders as the single
placeholder line, a non-empty one renders verbatim. -/
theorem strengths_rendered_witness :
    (step initState (Event.evalRespOk emptyStrengthsResult)).strengthsItems =
      ["No specific strengths identified."] ∧
    (step initState (Event.evalRespOk exResult)).strengthsItems =
      ["Clear message"] :=
  ⟨(strengths_rendered emptyStrengthsResult initState).1 (Or.inr rfl),
   (strengths_rendered exResult initState).2.1 (["Clear message"]) rfl (by decide)⟩

/-- Helper: a trace containing no successful evaluation response leaves a
null refinement plan null. -/
lemma run_plan_none (es : List Event) (s : ClientState)
    (hs : s.currentRefinementPlan = none)
    (he : es.all (fun e => !e.isEvalOk) = true) :
    (run s es).currentRefinementPlan = none := by
  induction es generalizing s with
  | nil => exact hs
  | cons e es ih =>
      simp only [List.all_cons, Bool.and_eq_true] at he
      have h1 : (step s e).currentRefinementPlan = none := by
        rw [currentPlan_step_eq]
        cases e <;> simp_all [Event.isEvalOk]
      exact ih (step s e) h1 he.2

/-- Claim C5: before any successful evaluation the stored refinement plan
is still null, and a regenerate click is then refused locally: no
`/regenerate` request is issued (the request log and the in-flight counter
are unchanged), and — whenever the control is actually clickable — the
fixed user-visible prompt is raised. -/
theorem regen_refused_without_success (es : List Event)
    (he : es.all (fun e => !e.isEvalOk) = true) :
    (run initState es).currentRefinementPlan = none ∧
    (step (run initState es) Event.regenClick).regenRequests =
      (run initState es).regenRequests ∧
    (step (run initState es) Event.regenClick).pendingRegen =
      (run initState es).pendingRegen ∧
    ((run initState es).regenButtonDisabled = false →
      (step (run initState es) Event.regenClick).alerts =
        (run initState es).alerts ++ ["No refinement plan available to generate from."]) := by
  have hplan : (run initState es).currentRefinementPlan = none :=
    run_plan_none es initState rfl he
  by_cases hd : (run initState es).regenButtonDisabled = true
  · refine ⟨hplan, ?_, ?_, ?_⟩ <;> simp [step, hd]
  · simp only [Bool.not_eq_true] at hd
    refine ⟨hplan, ?_, ?_, ?_⟩ <;> simp [step, hd, regenHandler, hplan]

/-- Witness for C5 at the empty trace (a fresh page load). -/
theorem regen_refused_without_success_witness :
    (step (run initState []) Event.regenClick).regenRequests =
      (run initState []).regenRequests ∧
    (step (run initState []) Event.regenClick).alerts =
      (run initState []).alerts ++ ["No refinement plan available to generate from."] :=
  ⟨(regen_refused_without_success [] rfl).2.1,
   (regen_refused_without_success [] rfl).2.2.2 rfl⟩

/-- The refinement plan delivered by the most recent successful evaluation
response of a trace, `none` when there has been none. -/
def lastEvalPlan (es : List Event) : Option String :=
  es.foldl
    (fun acc e =>
      match e with
      | Event.evalRespOk r => some r.refinement_plan
      | _ => acc)
    none

/-- Helper: after any trace the stored refinement plan is exactly the one
delivered by the trace's most recent successful evaluation response. -/
lemma currentPlan_run (es : List Event) (s : ClientState) :
    (run s es).currentRefinementPlan =
      es.foldl
        (fun acc e =>
          match e with
          | Event.evalRespOk r => some r.refinement_plan
          | _ => acc)
        s.currentRefinementPlan := by
  induction es generalizing s with
  | nil => rfl
  | cons e es ih =>
      show (run (step s e) es).currentRefinementPlan = _
      rw [ih, List.foldl_cons]
      congr 1
      exact currentPlan_step_eq s e

/-- Helper: one step either leaves the `/regenerate` request log unchanged
or is a regenerate click that appends exactly the currently stored
(truthy) plan. -/
lemma regenRequests_step_cases (s : ClientState) (e : Event) :
    (step s e).regenRequests = s.regenRequests ∨
    (e = Event.regenClick ∧ ∃ p, s.currentRefinementPlan = some p ∧ p ≠ "" ∧
      (step s e).regenRequests = s.regenRequests ++ [p]) := by
  cases e with
  | regenClick =>
      by_cases hd : s.regenButtonDisabled = true
      · left
        simp [step, hd]
      · simp only [Bool.not_eq_true] at hd
        cases hp : s.currentRefinementPlan with
        | none =>
            left
            simp [step, hd, regenHandler, hp]
        | some p =>
            by_cases hps : p = ""
            · left
              simp [step, hd, regenHandler, hp, hps]
            · right
              exact ⟨rfl, p, rfl, hps, by simp [step, hd, regenHandler, hp, hps]⟩
  | selectFile f =>
      left
      simp only [step, handleFile]
      split_ifs <;> rfl
  | submitClick =>
      left
      by_cases hd : s.submitDisabled = true
      · simp [step, hd]
      · simp only [Bool.not_eq_true] at hd
        cases hf : s.imageFile <;>
          simp [step, hd, submitHandler, hf, showLoadingState]
  | evalRespOk r => left; rfl
  | evalRespHttpErr status detail => left; rfl
  | evalRespTransportErr msg => left; rfl
  | regenRespOk url => left; rfl
  | regenRespFail => left; rfl

/-- Claim C2: whenever a step of the client extends the `/regenerate`
request log, every value appended to a request body is exactly the
refinement plan most recently received from a successful evaluation
response (which is also the currently stored plan, unmutated). -/
theorem regen_request_carries_last_plan (es : List Event) (e : Event)
    (l : List String) (q : String)
    (hl : (run initState (es ++ [e])).regenRequests =
      (run initState es).regenRequests ++ l)
    (hq : q ∈ l) :
    lastEvalPlan es = some q ∧
    (run initState es).currentRefinementPlan = some q := by
  have hrun : run initState (es ++ [e]) = step (run initState es) e := by
    simp [run, List.foldl_append]
  rw [hrun] at hl
  have hlast : (run initState es).currentRefinementPlan = lastEvalPlan es :=
    currentPlan_run es initState
  rcases regenRequests_step_cases (run initState es) e with
    hcase | ⟨-, p, hp, -, hreq⟩
  · rw [hcase] at hl
    have hnil : l = [] := by simpa using congrArg List.length hl
    rw [hnil] at hq
    simp at hq
  · rw [hreq] at hl
    have hlp : l = [p] := List.append_cancel_left hl.symm
    rw [hlp] at hq
    have hqp : q = p := by simpa using hq
    rw [hqp]
    refine ⟨?_, hp⟩
    rw [← hlast]
    exact hp

/-- The witness trace: select an image, submit it, receive a successful
critique. -/
def exTrace : List Event :=
  [Event.selectFile exFile, Event.submitClick, Event.evalRespOk exResult]

/-- Witness for C2: after the witness trace, a regenerate click appends
exactly the plan of the trace's successful evaluation. -/
theorem regen_request_carries_last_plan_witness :
    lastEvalPlan exTrace = some ("plan-1") ∧
    (run initState exTrace).currentRefinementPlan = some ("plan-1") :=
  regen_request_carries_last_plan exTrace Event.regenClick
    (["plan-1"]) ("plan-1") (by decide) (by decide)

/-- Claim C3 as frozen is false on the code: after a valid image is
selected and submitted, the submit control is still enabled while the
request is unsettled, and a second click issues a second `/evaluate`
request — two evaluation requests are then in flight at once.  Concrete
input: select `ad.png` (`image/png`), click submit twice before any
response arrives. -/
theorem double_submit_counterexample :
    (run initState [Event.selectFile exFile, Event.submitClick]).submitDisabled
      = false ∧
    (run initState [Event.selectFile exFile, Event.submitClick]).pendingEval
      = 1 ∧
    (run initState
        [Event.selectFile exFile, Event.submitClick, Event.submitClick]).pendingEval
      = 2 ∧
    (run initState
        [Event.selectFile exFile, Event.submitClick, Event.submitClick]).evalRequests
      = [exFile, exFile] := by
  decide

/-- Claim C3 amended: the busy state does not disable re-entry into the
submit transition.  While an evaluation request is in flight the submit
control remains enabled, and every further click with a stored file
issues one further request, so several evaluation requests can be in
flight at once. -/
theorem submit_reentry_possible (s : ClientState) (f : FileVal)
    (hf : s.imageFile = some f) (hd : s.submitDisabled = false) :
    (step s Event.submitClick).submitDisabled = false ∧
    (step s Event.submitClick).imageFile = some f ∧
    (step s Event.submitClick).pendingEval = s.pendingEval + 1 ∧
    (step s Event.submitClick).evalRequests = s.evalRequests ++ [f] ∧
    (step (step s Event.submitClick) Event.submitClick).pendingEval
      = s.pendingEval + 2 := by
  simp [step, hd, submitHandler, hf, showLoadingState]

/-- Witness for the amended C3 at the concrete post-selection state. -/
theorem submit_reentry_possible_witness :
    (step (handleFile exFile initState) Event.submitClick).pendingEval =
      (handleFile exFile initState).pendingEval + 1 ∧
    (step (step (handleFile exFile initState) Event.submitClick)
        Event.submitClick).pendingEval =
      (handleFile exFile initState).pendingEval + 2 :=
  ⟨(submit_reentry_possible (handleFile exFile initState) exFile
      (by decide) (by decide)).2.2.1,
   (submit_reentry_possible (handleFile exFile initState) exFile
      (by decide) (by decide)).2.2.2.2⟩

/-- Claim C6 as frozen is false on the code: a `detail` field that is
present but empty is not used.  The `||` fallback treats the empty string
as absent, so at status 500 with `detail = ""` the shown text is the
generic status message rather than one derived from the present detail
field. -/
theorem empty_detail_counterexample :
    (step planState (Event.evalRespHttpErr 500 (some ("")))).placeholderText =
      "An error occurred during evaluation: " ++
        ("HTTP error! Status: " ++ toString 500) ∧
    (step planState (Event.evalRespHttpErr 500 (some ("")))).placeholderText ≠
      "An error occurred during evaluation: " := by
  decide

/-- Claim C6 amended: on a failed evaluation the displayed message prefers
a present and non-empty (truthy) server `detail`; otherwise it is the
generic message carrying the HTTP status code; a transport failure shows
the transport error's message.  Every non-2xx response settles as a
failure: the error panel is shown with the `Analysis Failed` title. -/
theorem eval_error_message (s : ClientState) (status : Nat)
    (detail : Option String) (msg : String) :
    (∀ d, detail = some d → d ≠ "" →
      (step s (Event.evalRespHttpErr status detail)).placeholderText =
        "An error occurred during evaluation: " ++ d) ∧
    ((detail = none ∨ detail = some ("")) →
      (step s (Event.evalRespHttpErr status detail)).placeholderText =
        "An error occurred during evaluation: " ++
          ("HTTP error! Status: " ++ toString status)) ∧
    (step s (Event.evalRespHttpErr status detail)).resultsPlaceholderVisible
      = true ∧
    (step s (Event.evalRespHttpErr status detail)).placeholderTitle
      = "Analysis Failed" ∧
    (step s (Event.evalRespTransportErr msg)).placeholderText =
      "An error occurred during evaluation: " ++ msg := by
  refine ⟨?_, ?_, rfl, rfl, rfl⟩
  · intro d hd hne
    simp [step, evalSettleHttpErr, jsOrElse, showErrorState, hd, hne]
  · rintro (h | h) <;>
      simp [step, evalSettleHttpErr, jsOrElse, showErrorState, h]

/-- Witness for the amended C6 at status 503 with a non-empty detail and
with no detail. -/
theorem eval_error_message_witness :
    (step planState
        (Event.evalRespHttpErr 503 (some ("vision service unavailable")))).placeholderText =
      "An error occurred during evaluation: " ++ "vision service unavailable" ∧
    (step planState (Event.evalRespHttpErr 503 none)).placeholderText =
      "An error occurred during evaluation: " ++
        ("HTTP error! Status: " ++ toString 503) :=
  ⟨(eval_error_message planState 503 (some ("vision service unavailable"))
      ("")).1 ("vision service unavailable") rfl (by decide),
   (eval_error_message planState 503 none ("")).2.1 (Or.inl rfl)⟩

/-- Claim C10: a successful regeneration hides the placeholder; a failed
regeneration only hides the loader and re-enables the control, restoring
neither the image nor the placeholder.  So a regenerate click followed by
a failure, after an earlier successful regeneration, leaves the pane with
no image, no placeholder and no loader visible. -/
theorem regen_failure_leaves_pane_empty (s : ClientState) (p url : String)
    (hd : s.regenButtonDisabled = false)
    (hp : s.currentRefinementPlan = some p) (hps : p ≠ "") :
    (step s (Event.regenRespOk url)).regenPlaceholderVisible = false ∧
    (run s [Event.regenClick, Event.regenRespOk url,
        Event.regenClick, Event.regenRespFail]).regenImageVisible = false ∧
    (run s [Event.regenClick, Event.regenRespOk url,
        Event.regenClick, Event.regenRespFail]).regenPlaceholderVisible = false ∧
    (run s [Event.regenClick, Event.regenRespOk url,
        Event.regenClick, Event.regenRespFail]).regenLoaderVisible = false ∧
    (run s [Event.regenClick, Event.regenRespOk url,
        Event.regenClick, Event.regenRespFail]).regenButtonDisabled = false := by
  have h1 : run s [Event.regenClick, Event.regenRespOk url,
      Event.regenClick, Event.regenRespFail] =
      step (step (step (step s Event.regenClick) (Event.regenRespOk url))
        Event.regenClick) Event.regenRespFail := rfl
  refine ⟨rfl, ?_, ?_, ?_, ?_⟩ <;>
    · rw [h1]
      simp [step, hd, regenHandler, hp, hps, regenSettleOk,
        displayRegeneratedImage, regenSettleFail]

/-- Witness for C10: the concrete regenerate-success-then-failure run from
a state holding the plan `plan-0`. -/
theorem regen_failure_leaves_pane_empty_witness :
    (run planState [Event.regenClick, Event.regenRespOk ("https://x/y.png"),
        Event.regenClick, Event.regenRespFail]).regenImageVisible = false ∧
    (run planState [Event.regenClick, Event.regenRespOk ("https://x/y.png"),
        Event.regenClick, Event.regenRespFail]).regenPlaceholderVisible = false ∧
    (run planState [Event.regenClick, Event.regenRespOk ("https://x/y.png"),
        Event.regenClick, Event.regenRespFail]).regenLoaderVisible = false :=
  ⟨(regen_failure_leaves_pane_empty planState ("plan-0") ("https://x/y.png")
      rfl rfl (by decide)).2.1,
   (regen_failure_leaves_pane_empty planState ("plan-0") ("https://x/y.png")
      rfl rfl (by decide)).2.2.1,
   (regen_failure_leaves_pane_empty planState ("plan-0") ("https://x/y.png")
      rfl rfl (by decide)).2.2.2.1⟩

/-- Witness for C1 at the boundary scores 0.8 and 0.5. -/
theorem getScoreColor_classification_witness :
    getScoreColor (JSNum.num (4/5)) = "var(--success-color)" ∧
    getScoreColor (JSNum.num (1/2)) = "var(--warning-color)" :=
  ⟨(getScoreColor_classification 0).2.2.2.1,
   (getScoreColor_classification 0).2.2.2.2⟩
